import Mathlib

/-!
Shallow embedding of the item CRUD HTTP service (src/server.js).

Request bodies are JSON, so a supplied field is one of: a string, a number,
a boolean, null, or absent (undefined).  The Mongo/mongoose layer is modelled
by a pure store: a list of items plus a fresh-id counter; object ids in route
parameters are either well formed (and name a numeric id) or malformed, the
latter making every query throw a CastError.  JavaScript string trimming is
modelled by jsTrim (drop whitespace from both ends).  Every route handler is
a pure function from its inputs and the store to a response and a new store.
-/

namespace Server

/-- A JavaScript value as it can appear in a parsed JSON request body field;
vundef stands for an absent field. -/
inductive JsVal where
  | vundef
  | vnull
  | vstr (s : String)
  | vnum (n : Int)
  | vbool (b : Bool)
  deriving DecidableEq

/-- The error kinds the handlers distinguish: mongoose CastError (malformed
object id), mongoose ValidationError (schema validation on write), and the
TypeError raised by calling toString on null. -/
inductive JsErr where
  | castError
  | validationError
  | typeError
  deriving DecidableEq

/-- Drop leading whitespace characters from a character list. -/
def jsTrimLeftList (l : List Char) : List Char :=
  l.dropWhile Char.isWhitespace

/-- Drop trailing whitespace characters from a character list. -/
def jsTrimRightList (l : List Char) : List Char :=
  (l.reverse.dropWhile Char.isWhitespace).reverse

/-- Drop whitespace from both ends of a character list. -/
def jsTrimList (l : List Char) : List Char :=
  jsTrimRightList (jsTrimLeftList l)

/-- Model of JavaScript String.prototype.trim. -/
def jsTrim (s : String) : String :=
  ⟨jsTrimList s.data⟩

/-- JavaScript truthiness of a body field value. -/
def truthy : JsVal → Bool
  | .vundef => false
  | .vnull => false
  | .vstr s => s != ""
  | .vnum n => n != 0
  | .vbool b => b

/-- Whether typeof v === "string". -/
def isString : JsVal → Bool
  | .vstr _ => true
  | _ => false

/-- The underlying string of a string value (only used under an isString
guard, mirroring the short-circuit in the handlers). -/
def strOf : JsVal → String
  | .vstr s => s
  | _ => ""

/-- Model of v.toString(): throws a TypeError on null and undefined,
otherwise yields the usual JavaScript string form. -/
def jsToString : JsVal → Except JsErr String
  | .vundef => .error .typeError
  | .vnull => .error .typeError
  | .vstr s => .ok s
  | .vnum n => .ok (toString n)
  | .vbool b => .ok (if b then "true" else "false")

/-- A persisted item document: name and description strings plus the
store-assigned id and creation/update timestamps. -/
structure Item where
  id : Nat
  name : String
  description : String
  createdAt : Nat
  updatedAt : Nat
  deriving DecidableEq

/-- The document store: the item collection and the next fresh id. -/
structure Store where
  items : List Item
  nextId : Nat
  deriving DecidableEq

/-- A JSON response document. -/
inductive Json where
  | jnull
  | jstr (s : String)
  | jnum (n : Int)
  | jbool (b : Bool)
  | jarr (elems : List Json)
  | jobj (fields : List (String × Json))

/-- A response body: a JSON document or a served file. -/
inductive RespBody where
  | json (j : Json)
  | file (path : String)

/-- An HTTP response: status code and body. -/
structure Response where
  code : Nat
  body : RespBody

/-- The parsed JSON request body restricted to the two recognized fields
(unknown fields are ignored by every handler). -/
structure ReqBody where
  name : JsVal
  description : JsVal
  deriving DecidableEq

/-- A route id parameter: either malformed (casting it throws a CastError)
or well formed, naming a numeric document id. -/
inductive ReqId where
  | malformed (raw : String)
  | wellFormed (oid : Nat)
  deriving DecidableEq

/-- Model of Item.create: the schema applies the trim setter to both fields,
requires a nonempty name, assigns the next fresh id and sets both
timestamps to the current time; the new document is appended. -/
def Item.create (store : Store) (now : Nat) (name description : String) :
    Except JsErr (Item × Store) :=
  let n := jsTrim name
  let d := jsTrim description
  if n == "" then .error .validationError
  else
    let it : Item :=
      { id := store.nextId, name := n, description := d,
        createdAt := now, updatedAt := now }
    .ok (it, { items := store.items ++ [it], nextId := store.nextId + 1 })

/-- Model of Item.findById: a malformed id throws a CastError, otherwise the
first document with the given id is returned, if any. -/
def findById (store : Store) (rid : ReqId) : Except JsErr (Option Item) :=
  match rid with
  | .malformed _ => .error .castError
  | .wellFormed oid => .ok (store.items.find? (fun it => it.id == oid))

/-- The update document passed to findByIdAndUpdate: the fields present in
the update operation. -/
structure UpdateDoc where
  name : Option String
  description : Option String
  deriving DecidableEq

/-- Model of Item.findByIdAndUpdate with new:true and runValidators:true: a
malformed id throws a CastError; schema setters trim the supplied fields
and the required validator rejects an update that sets name to the empty
string; if no document matches, none is returned and the store is
untouched; otherwise the matched document gets the supplied fields and a
refreshed updatedAt, and the updated document is returned. -/
def findByIdAndUpdate (store : Store) (now : Nat) (rid : ReqId)
    (upd : UpdateDoc) : Except JsErr (Option Item × Store) :=
  match rid with
  | .malformed _ => .error .castError
  | .wellFormed oid =>
    let n := upd.name.map jsTrim
    let d := upd.description.map jsTrim
    if n == some "" then .error .validationError
    else
      match store.items.find? (fun it => it.id == oid) with
      | none => .ok (none, store)
      | some it =>
        let it2 : Item :=
          { it with
            name := n.getD it.name,
            description := d.getD it.description,
            updatedAt := now }
        .ok (some it2,
          { store with
            items := store.items.map (fun x => if x.id == oid then it2 else x) })

/-- Model of Item.findByIdAndDelete: a malformed id throws a CastError; if a
document matches it is removed and returned, otherwise none. -/
def findByIdAndDelete (store : Store) (rid : ReqId) :
    Except JsErr (Option Item × Store) :=
  match rid with
  | .malformed _ => .error .castError
  | .wellFormed oid =>
    match store.items.find? (fun it => it.id == oid) with
    | none => .ok (none, store)
    | some it =>
      .ok (some it, { store with items := store.items.filter (fun x => !(x.id == oid)) })

/-- Model of Item.find().sort({ createdAt: -1 }): all documents, ordered by
descending creation time. -/
def itemFindSortDesc (store : Store) : List Item :=
  store.items.mergeSort (fun a b => decide (b.createdAt ≤ a.createdAt))

/-- JSON serialization of an item document. -/
def itemToJson (it : Item) : Json :=
  .jobj [("_id", .jnum it.id), ("name", .jstr it.name),
         ("description", .jstr it.description),
         ("createdAt", .jnum it.createdAt), ("updatedAt", .jnum it.updatedAt)]

/-- An error envelope response: status code plus status:"error" and a
message. -/
def errResp (code : Nat) (message : String) : Response :=
  { code := code,
    body := .json (.jobj [("status", .jstr "error"), ("message", .jstr message)]) }

/-- A 200 envelope response carrying a message and one item. -/
def okItemResp (message : String) (it : Item) : Response :=
  { code := 200,
    body := .json (.jobj [("status", .jstr "ok"), ("message", .jstr message),
                          ("data", itemToJson it)]) }

/-- Outcome of the requireApiKey middleware. -/
inductive AuthResult where
  | unauthorized
  | forbidden
  | pass
  deriving DecidableEq

/-- Model of the requireApiKey middleware: the x-api-key header value is
either absent (none) or a string; a falsy value (absent or empty) yields
401, a value different from the configured key yields 403, otherwise the
request proceeds. -/
def requireApiKey (apiKey : String) (key : Option String) : AuthResult :=
  match key with
  | none => .unauthorized
  | some k => if k == "" then .unauthorized
              else if k != apiKey then .forbidden
              else .pass

/-- Run a protected route: dispatch on requireApiKey, answering 401 or 403
without touching the store, or run the inner handler. -/
def withAuth (apiKey : String) (key : Option String)
    (inner : Store → Response × Store) (store : Store) : Response × Store :=
  match requireApiKey apiKey key with
  | .unauthorized => (errResp 401 "Unauthorized", store)
  | .forbidden => (errResp 403 "Forbidden", store)
  | .pass => inner store

/-- GET /api/items: list all items sorted by descending creation time, with
a count. -/
def getItemsHandler (store : Store) : Response × Store :=
  let items := itemFindSortDesc store
  ({ code := 200,
     body := .json (.jobj [("status", .jstr "ok"),
                           ("count", .jnum items.length),
                           ("data", .jarr (items.map itemToJson))]) },
   store)

/-- GET /api/items/:id: fetch one item; CastError maps to 400, a missing
document to 404, any other failure to 500. -/
def getItemByIdHandler (rid : ReqId) (store : Store) : Response × Store :=
  match findById store rid with
  | .error .castError => (errResp 400 "Invalid item id", store)
  | .error _ => (errResp 500 "Server error", store)
  | .ok none => (errResp 404 "Item not found", store)
  | .ok (some it) =>
    ({ code := 200,
       body := .json (.jobj [("status", .jstr "ok"), ("data", itemToJson it)]) },
     store)

/-- POST /api/items behind the auth wall: reject a falsy, non-string or
blank-trimming name with 400, otherwise create from the trimmed name and
the trimmed description (defaulted to empty when not a string). -/
def postItemsHandler (body : ReqBody) (now : Nat) (store : Store) :
    Response × Store :=
  if !(truthy body.name) || !(isString body.name)
      || ((jsTrim (strOf body.name)).length == 0) then
    (errResp 400 "name is required", store)
  else
    match Item.create store now (jsTrim (strOf body.name))
        (if isString body.description then jsTrim (strOf body.description) else "") with
    | .error _ => (errResp 500 "Server error", store)
    | .ok (it, store2) =>
      ({ code := 201,
         body := .json (.jobj [("status", .jstr "ok"),
                               ("message", .jstr "Item created"),
                               ("data", itemToJson it)]) },
       store2)

/-- PUT /api/items/:id behind the auth wall: same name validation as create,
then replace both fields (description defaulted to empty when not a
string); CastError maps to 400, a missing document to 404, other failures
to 500. -/
def putItemsHandler (rid : ReqId) (body : ReqBody) (now : Nat) (store : Store) :
    Response × Store :=
  if !(truthy body.name) || !(isString body.name)
      || ((jsTrim (strOf body.name)).length == 0) then
    (errResp 400 "name is required for PUT", store)
  else
    match findByIdAndUpdate store now rid
        { name := some (jsTrim (strOf body.name)),
          description := some (if isString body.description
                               then jsTrim (strOf body.description) else "") } with
    | .error .castError => (errResp 400 "Invalid item id", store)
    | .error _ => (errResp 500 "Server error", store)
    | .ok (none, store2) => (errResp 404 "Item not found", store2)
    | .ok (some it, store2) => (okItemResp "Item updated" it, store2)

/-- Build the PATCH update entry for one recognized field: an absent field
contributes nothing; a present field is coerced with toString (throwing on
null) and trimmed. -/
def coercePatchField (v : JsVal) : Except JsErr (Option String) :=
  match v with
  | .vundef => .ok none
  | v => (jsToString v).map (fun s => some (jsTrim s))

/-- PATCH /api/items/:id behind the auth wall: collect the recognized fields
present in the body (coercing each with toString, which throws on null and
surfaces as 500); an empty update document yields 400; then update as in
PUT. -/
def patchItemsHandler (rid : ReqId) (body : ReqBody) (now : Nat) (store : Store) :
    Response × Store :=
  match (do
      let n ← coercePatchField body.name
      let d ← coercePatchField body.description
      pure (n, d) : Except JsErr (Option String × Option String)) with
  | .error _ => (errResp 500 "Server error", store)
  | .ok (n, d) =>
    if n == none && d == none then
      (errResp 400 "No valid fields provided for PATCH", store)
    else
      match findByIdAndUpdate store now rid { name := n, description := d } with
      | .error .castError => (errResp 400 "Invalid item id", store)
      | .error _ => (errResp 500 "Server error", store)
      | .ok (none, store2) => (errResp 404 "Item not found", store2)
      | .ok (some it, store2) => (okItemResp "Item partially updated" it, store2)

/-- DELETE /api/items/:id behind the auth wall. -/
def deleteItemsHandler (rid : ReqId) (store : Store) : Response × Store :=
  match findByIdAndDelete store rid with
  | .error .castError => (errResp 400 "Invalid item id", store)
  | .error _ => (errResp 500 "Server error", store)
  | .ok (none, store2) => (errResp 404 "Item not found", store2)
  | .ok (some it, store2) => (okItemResp "Item deleted" it, store2)

/-- The protected POST /api/items route. -/
def postItems (apiKey : String) (key : Option String) (body : ReqBody)
    (now : Nat) (store : Store) : Response × Store :=
  withAuth apiKey key (postItemsHandler body now) store

/-- The protected PUT /api/items/:id route. -/
def putItems (apiKey : String) (key : Option String) (rid : ReqId)
    (body : ReqBody) (now : Nat) (store : Store) : Response × Store :=
  withAuth apiKey key (putItemsHandler rid body now) store

/-- The protected PATCH /api/items/:id route. -/
def patchItems (apiKey : String) (key : Option String) (rid : ReqId)
    (body : ReqBody) (now : Nat) (store : Store) : Response × Store :=
  withAuth apiKey key (patchItemsHandler rid body now) store

/-- The protected DELETE /api/items/:id route. -/
def deleteItems (apiKey : String) (key : Option String) (rid : ReqId)
    (store : Store) : Response × Store :=
  withAuth apiKey key (deleteItemsHandler rid) store

/-- GET /api: static service metadata. -/
def apiInfoResp : Response :=
  { code := 200,
    body := .json (.jobj
      [("status", .jstr "ok"), ("message", .jstr "API is running"),
       ("endpoints", .jobj
         [("list", .jstr "GET /api/items"),
          ("getById", .jstr "GET /api/items/:id"),
          ("create", .jstr "POST /api/items"),
          ("update", .jstr "PUT /api/items/:id"),
          ("patch", .jstr "PATCH /api/items/:id"),
          ("delete", .jstr "DELETE /api/items/:id")])]) }

/-- GET /version: static version metadata, a bare object with no status
flag. -/
def versionResp : Response :=
  { code := 200,
    body := .json (.jobj [("version", .jstr "1.2"),
                          ("updatedAt", .jstr "2026-01-28")]) }

/-- GET /: the static homepage file. -/
def homeResp : Response :=
  { code := 200, body := .file "public/index.html" }

/-- The fallback route: 404 JSON envelope. -/
def notFoundResp : Response :=
  errResp 404 "Route not found"

/-- Whether a response body is a JSON object carrying a status field. -/
def RespBody.hasStatusField : RespBody → Bool
  | .json (.jobj fields) => fields.any (fun f => f.1 == "status")
  | _ => false

/-- Look up a field of a JSON object. -/
def Json.getField (j : Json) (k : String) : Option Json :=
  match j with
  | .jobj fields => (fields.find? (fun f => f.1 == k)).map (fun f => f.2)
  | _ => none

/-- Look up a field of a JSON response body. -/
def RespBody.getField (b : RespBody) (k : String) : Option Json :=
  match b with
  | .json j => j.getField k
  | .file _ => none

/-! ### Basic lemmas about trimming -/

theorem jsTrimLeftList_idem (l : List Char) :
    jsTrimLeftList (jsTrimLeftList l) = jsTrimLeftList l :=
  List.dropWhile_idempotent _ _

theorem jsTrimRightList_idem (l : List Char) :
    jsTrimRightList (jsTrimRightList l) = jsTrimRightList l := by
  simp [jsTrimRightList, List.reverse_reverse, List.dropWhile_idempotent]

theorem jsTrimRightList_append (l : List Char) :
    ∃ t, jsTrimRightList l ++ t = l := by
  obtain ⟨t, ht⟩ := @List.dropWhile_suffix Char l.reverse Char.isWhitespace
  refine ⟨t.reverse, ?_⟩
  have h2 := congrArg List.reverse ht
  simpa [jsTrimRightList] using h2

theorem dropWhile_head_false (p : α → Bool) :
    ∀ (l : List α) (a : α) (r : List α), l.dropWhile p = a :: r → p a = false := by
  intro l
  induction l with
  | nil =>
    intro a r h
    simp [List.dropWhile] at h
  | cons b l2 ih =>
    intro a r h
    by_cases hb : p b = true
    · rw [List.dropWhile_cons, if_pos hb] at h
      exact ih a r h
    · rw [List.dropWhile_cons, if_neg hb] at h
      cases h
      simpa using hb

theorem jsTrimLeftList_trimRight_left (l : List Char) :
    jsTrimLeftList (jsTrimRightList (jsTrimLeftList l))
      = jsTrimRightList (jsTrimLeftList l) := by
  obtain ⟨t, ht⟩ := jsTrimRightList_append (jsTrimLeftList l)
  cases hy : jsTrimRightList (jsTrimLeftList l) with
  | nil => simp [jsTrimLeftList]
  | cons a y2 =>
    rw [hy] at ht
    have hws : Char.isWhitespace a = false := by
      apply dropWhile_head_false Char.isWhitespace l a (y2 ++ t)
      exact ht.symm
    simp [jsTrimLeftList, List.dropWhile_cons, hws]

theorem jsTrimList_idem (l : List Char) :
    jsTrimList (jsTrimList l) = jsTrimList l := by
  unfold jsTrimList
  rw [jsTrimLeftList_trimRight_left, jsTrimRightList_idem]

theorem jsTrim_idem (s : String) : jsTrim (jsTrim s) = jsTrim s :=
  congrArg String.mk (jsTrimList_idem s.data)

theorem jsTrim_empty : jsTrim "" = "" := rfl

theorem string_length_eq_zero_iff (s : String) : s.length = 0 ↔ s = "" := by
  constructor
  · intro h
    have hd : s.data = [] := List.length_eq_zero.mp h
    rw [String.ext_iff, hd]
  · intro h
    subst h
    decide

theorem jsTrim_ne_empty_of_arg (s : String) (h : jsTrim s ≠ "") : s ≠ "" := by
  intro hc
  apply h
  rw [hc]
  rfl

/-! ### Auth middleware lemmas -/

theorem requireApiKey_none (apiKey : String) :
    requireApiKey apiKey none = .unauthorized := rfl

theorem requireApiKey_some_empty (apiKey : String) :
    requireApiKey apiKey (some "") = .unauthorized := by
  simp [requireApiKey]

theorem requireApiKey_wrong (apiKey k : String) (h1 : k ≠ "") (h2 : k ≠ apiKey) :
    requireApiKey apiKey (some k) = .forbidden := by
  simp [requireApiKey, h1, h2]

theorem requireApiKey_correct (apiKey : String) (h : apiKey ≠ "") :
    requireApiKey apiKey (some apiKey) = .pass := by
  simp [requireApiKey, h]

/-! ### Envelope shape lemmas -/

theorem errResp_hasStatus (c : Nat) (m : String) :
    (errResp c m).body.hasStatusField = true := rfl

theorem okItemResp_hasStatus (m : String) (it : Item) :
    (okItemResp m it).body.hasStatusField = true := rfl

theorem getItemsHandler_hasStatus (store : Store) :
    ((getItemsHandler store).1).body.hasStatusField = true := rfl

theorem getItemByIdHandler_hasStatus (rid : ReqId) (store : Store) :
    ((getItemByIdHandler rid store).1).body.hasStatusField = true := by
  unfold getItemByIdHandler
  split <;> rfl

theorem postItemsHandler_hasStatus (body : ReqBody) (now : Nat) (store : Store) :
    ((postItemsHandler body now store).1).body.hasStatusField = true := by
  unfold postItemsHandler
  split
  · rfl
  · split <;> rfl

theorem putItemsHandler_hasStatus (rid : ReqId) (body : ReqBody) (now : Nat)
    (store : Store) :
    ((putItemsHandler rid body now store).1).body.hasStatusField = true := by
  unfold putItemsHandler
  split
  · rfl
  · split <;> rfl

theorem patchItemsHandler_hasStatus (rid : ReqId) (body : ReqBody) (now : Nat)
    (store : Store) :
    ((patchItemsHandler rid body now store).1).body.hasStatusField = true := by
  unfold patchItemsHandler
  split
  · rfl
  · split
    · rfl
    · split <;> rfl

theorem deleteItemsHandler_hasStatus (rid : ReqId) (store : Store) :
    ((deleteItemsHandler rid store).1).body.hasStatusField = true := by
  unfold deleteItemsHandler
  split <;> rfl

theorem withAuth_hasStatus (apiKey : String) (key : Option String)
    (inner : Store → Response × Store) (store : Store)
    (hinner : ∀ st, ((inner st).1).body.hasStatusField = true) :
    ((withAuth apiKey key inner store).1).body.hasStatusField = true := by
  unfold withAuth
  split
  · rfl
  · rfl
  · exact hinner store

/-! ### Claim C2 -/

/-- C2 counterexample: with the configured secret "secret", a request whose
x-api-key header is present with the empty value carries a value different
from the secret, yet the response is 401, not the 403 the claim predicts. -/
theorem c2_cex_empty_header_401 :
    (postItems "secret" (some "") ⟨.vundef, .vundef⟩ 0 ⟨[], 0⟩).1.code = 401 ∧
    ¬ (postItems "secret" (some "") ⟨.vundef, .vundef⟩ 0 ⟨[], 0⟩).1.code = 403 := by
  constructor
  · decide
  · decide

/-- C2 (amended): on every protected items route, a missing or empty
x-api-key header yields 401; a nonempty header value differing from the
configured secret (itself nonempty, as the process refuses to start
otherwise) yields 403; and the exact secret passes the check, the route
handler running on the untouched store. -/
theorem c2_auth_routes (apiKey : String) (hk : apiKey ≠ "") :
    (∀ (key : Option String) (body : ReqBody) (rid : ReqId) (now : Nat) (store : Store),
       (key = none ∨ key = some "") →
         (postItems apiKey key body now store).1.code = 401 ∧
         (putItems apiKey key rid body now store).1.code = 401 ∧
         (patchItems apiKey key rid body now store).1.code = 401 ∧
         (deleteItems apiKey key rid store).1.code = 401)
    ∧ (∀ (k : String) (body : ReqBody) (rid : ReqId) (now : Nat) (store : Store),
         k ≠ "" → k ≠ apiKey →
           (postItems apiKey (some k) body now store).1.code = 403 ∧
           (putItems apiKey (some k) rid body now store).1.code = 403 ∧
           (patchItems apiKey (some k) rid body now store).1.code = 403 ∧
           (deleteItems apiKey (some k) rid store).1.code = 403)
    ∧ (∀ (body : ReqBody) (rid : ReqId) (now : Nat) (store : Store),
         postItems apiKey (some apiKey) body now store = postItemsHandler body now store ∧
         putItems apiKey (some apiKey) rid body now store = putItemsHandler rid body now store ∧
         patchItems apiKey (some apiKey) rid body now store = patchItemsHandler rid body now store ∧
         deleteItems apiKey (some apiKey) rid store = deleteItemsHandler rid store) := by
  refine ⟨?_, ?_, ?_⟩
  · intro key body rid now store hkey
    have hauth : requireApiKey apiKey key = .unauthorized := by
      rcases hkey with h | h
      · rw [h]
        exact requireApiKey_none apiKey
      · rw [h]
        exact requireApiKey_some_empty apiKey
    refine ⟨?_, ?_, ?_, ?_⟩ <;>
      simp [postItems, putItems, patchItems, deleteItems, withAuth, hauth, errResp]
  · intro k body rid now store h1 h2
    have hauth : requireApiKey apiKey (some k) = .forbidden :=
      requireApiKey_wrong apiKey k h1 h2
    refine ⟨?_, ?_, ?_, ?_⟩ <;>
      simp [postItems, putItems, patchItems, deleteItems, withAuth, hauth, errResp]
  · intro body rid now store
    have hauth : requireApiKey apiKey (some apiKey) = .pass :=
      requireApiKey_correct apiKey hk
    refine ⟨?_, ?_, ?_, ?_⟩ <;>
      simp [postItems, putItems, patchItems, deleteItems, withAuth, hauth]

/-- C2 witness: the amended theorem at the concrete secret "secret" and a
header-free request. -/
theorem c2_auth_routes_witness :
    ("secret" : String) ≠ "" ∧
    (postItems "secret" none ⟨.vundef, .vundef⟩ 0 ⟨[], 0⟩).1.code = 401 :=
  ⟨by decide,
   (((c2_auth_routes "secret" (by decide)).1) none ⟨.vundef, .vundef⟩
     (.wellFormed 0) 0 ⟨[], 0⟩ (Or.inl rfl)).1⟩

/-! ### Claim C7 -/

/-- C7 counterexample: the GET /version response body carries no status
flag, so not every response of the service carries the uniform envelope. -/
theorem c7_cex_version_no_status :
    versionResp.body.hasStatusField = false := rfl

/-- C7 (amended): every response of the service carries the uniform
envelope status flag, except the GET /version response (a bare version
object) and the GET / homepage (a served file). -/
theorem c7_envelope_except_version :
    apiInfoResp.body.hasStatusField = true ∧
    notFoundResp.body.hasStatusField = true ∧
    (∀ store : Store, ((getItemsHandler store).1).body.hasStatusField = true) ∧
    (∀ (rid : ReqId) (store : Store),
       ((getItemByIdHandler rid store).1).body.hasStatusField = true) ∧
    (∀ (apiKey : String) (key : Option String) (body : ReqBody) (now : Nat) (store : Store),
       ((postItems apiKey key body now store).1).body.hasStatusField = true) ∧
    (∀ (apiKey : String) (key : Option String) (rid : ReqId) (body : ReqBody)
       (now : Nat) (store : Store),
       ((putItems apiKey key rid body now store).1).body.hasStatusField = true) ∧
    (∀ (apiKey : String) (key : Option String) (rid : ReqId) (body : ReqBody)
       (now : Nat) (store : Store),
       ((patchItems apiKey key rid body now store).1).body.hasStatusField = true) ∧
    (∀ (apiKey : String) (key : Option String) (rid : ReqId) (store : Store),
       ((deleteItems apiKey key rid store).1).body.hasStatusField = true) ∧
    versionResp.body.hasStatusField = false ∧
    homeResp.body = .file "public/index.html" := by
  refine ⟨rfl, rfl, getItemsHandler_hasStatus, getItemByIdHandler_hasStatus,
    ?_, ?_, ?_, ?_, rfl, rfl⟩
  · intro apiKey key body now store
    exact withAuth_hasStatus apiKey key _ store (fun st => postItemsHandler_hasStatus body now st)
  · intro apiKey key rid body now store
    exact withAuth_hasStatus apiKey key _ store (fun st => putItemsHandler_hasStatus rid body now st)
  · intro apiKey key rid body now store
    exact withAuth_hasStatus apiKey key _ store (fun st => patchItemsHandler_hasStatus rid body now st)
  · intro apiKey key rid store
    exact withAuth_hasStatus apiKey key _ store (fun st => deleteItemsHandler_hasStatus rid st)

/-! ### Claims C6 and C9 -/

/-- C6: for every store state, listing answers 200 and serves exactly the
stored items (a permutation of them, in particular exactly as many),
ordered by descending creation time, as the data payload of the
envelope. -/
theorem c6_list_sorted_desc (store : Store) :
    (getItemsHandler store).1.code = 200 ∧
    (itemFindSortDesc store).length = store.items.length ∧
    (itemFindSortDesc store).Perm store.items ∧
    (itemFindSortDesc store).Pairwise (fun a b => b.createdAt ≤ a.createdAt) ∧
    ((getItemsHandler store).1).body.getField "data"
      = some (.jarr ((itemFindSortDesc store).map itemToJson)) := by
  refine ⟨rfl, (List.mergeSort_perm store.items _).length_eq,
    List.mergeSort_perm store.items _, ?_, rfl⟩
  have h := @List.sorted_mergeSort Item
    (fun a b : Item => decide (b.createdAt ≤ a.createdAt))
    (fun a b c hab hbc => by
      simp only [decide_eq_true_eq] at hab hbc ⊢
      omega)
    (fun a b => by
      rcases Nat.le_total b.createdAt a.createdAt with h | h <;> simp [h])
    store.items
  exact h.imp (fun hab => by simpa using hab)

/-- C9: in every successful list response, the count field equals the
number of elements of the data array. -/
theorem c9_count_eq_data_length (store : Store) :
    ∃ elems : List Json,
      ((getItemsHandler store).1).body.getField "data" = some (.jarr elems) ∧
      ((getItemsHandler store).1).body.getField "count" = some (.jnum elems.length) := by
  refine ⟨(itemFindSortDesc store).map itemToJson, rfl, ?_⟩
  have hlen : ((itemFindSortDesc store).map itemToJson).length
      = (itemFindSortDesc store).length := List.length_map _ _
  rw [hlen]
  rfl

/-! ### List update lemma -/

theorem find?_map_overwrite {α : Type} (p : α → Bool) (c : α) (hc : p c = true) :
    ∀ (l : List α) (it : α), l.find? p = some it →
      (l.map (fun x => if p x then c else x)).find? p = some c := by
  intro l
  induction l with
  | nil =>
    intro it h
    simp at h
  | cons a l2 ih =>
    intro it h
    by_cases ha : p a = true
    · rw [List.map_cons, if_pos ha]
      exact List.find?_cons_of_pos _ hc
    · rw [List.find?_cons_of_neg _ ha] at h
      rw [List.map_cons, if_neg ha, List.find?_cons_of_neg _ ha]
      exact ih it h

/-! ### Name validation guard lemma -/

theorem valid_name_guard (s : String) (hne : jsTrim s ≠ "") :
    (!(truthy (JsVal.vstr s)) || !(isString (JsVal.vstr s))
      || ((jsTrim (strOf (JsVal.vstr s))).length == 0)) = false := by
  have hs : s ≠ "" := jsTrim_ne_empty_of_arg s hne
  have hlen : ((jsTrim s).length == 0) = false := by
    rw [beq_eq_false_iff_ne]
    intro hc
    exact hne ((string_length_eq_zero_iff (jsTrim s)).mp hc)
  simp [truthy, isString, strOf, hs, hlen]

/-! ### Create lemma -/

theorem Item.create_ok (store : Store) (now : Nat) (nm d : String)
    (hn : jsTrim nm ≠ "") :
    Item.create store now nm d
      = .ok ({ id := store.nextId, name := jsTrim nm, description := jsTrim d,
               createdAt := now, updatedAt := now },
             { items := store.items ++
                 [{ id := store.nextId, name := jsTrim nm, description := jsTrim d,
                    createdAt := now, updatedAt := now }],
               nextId := store.nextId + 1 }) := by
  simp [Item.create, hn]

/-! ### Claims C3 and C4 -/

/-- C3: an authorized create request whose name is missing, the empty
string, or not a string is answered 400 and the store is unchanged. -/
theorem c3_post_invalid_name_400 (apiKey : String) (key : Option String)
    (body : ReqBody) (now : Nat) (store : Store)
    (hauth : requireApiKey apiKey key = .pass)
    (hname : body.name = .vundef ∨ body.name = .vstr "" ∨ isString body.name = false) :
    (postItems apiKey key body now store).1.code = 400 ∧
    (postItems apiKey key body now store).2 = store := by
  have hguard : (!(truthy body.name) || !(isString body.name)
      || ((jsTrim (strOf body.name)).length == 0)) = true := by
    rcases hname with h | h | h
    · rw [h]; decide
    · rw [h]; decide
    · simp [h]
  constructor <;>
    simp [postItems, withAuth, hauth, postItemsHandler, hguard, errResp]

/-- C3 witness: the claim theorem at the secret "k" and a body with no name
field. -/
theorem c3_post_invalid_name_400_witness :
    requireApiKey "k" (some "k") = .pass ∧
    (postItems "k" (some "k") ⟨.vundef, .vundef⟩ 0 ⟨[], 0⟩).1.code = 400 :=
  ⟨by decide,
   (c3_post_invalid_name_400 "k" (some "k") ⟨.vundef, .vundef⟩ 0 ⟨[], 0⟩
     (by decide) (Or.inl rfl)).1⟩

/-- C4: an authorized create request with a string name that is nonempty
after trimming is answered 201, and the appended document carries the
trimmed name, the trimmed description when a string was supplied and the
empty string otherwise, the store-assigned fresh id, and both timestamps
set to the current time. -/
theorem c4_post_valid_name_201 (apiKey : String) (key : Option String)
    (s : String) (body : ReqBody) (now : Nat) (store : Store)
    (hauth : requireApiKey apiKey key = .pass)
    (hname : body.name = .vstr s)
    (hne : jsTrim s ≠ "") :
    (postItems apiKey key body now store).1.code = 201 ∧
    (postItems apiKey key body now store).2.items
      = store.items ++
        [{ id := store.nextId, name := jsTrim s,
           description := if isString body.description = true
                          then jsTrim (strOf body.description) else "",
           createdAt := now, updatedAt := now }] ∧
    (postItems apiKey key body now store).2.nextId = store.nextId + 1 := by
  have hguard := valid_name_guard s hne
  have hdesc : jsTrim (if isString body.description = true
      then jsTrim (strOf body.description) else "")
      = (if isString body.description = true
         then jsTrim (strOf body.description) else "") := by
    by_cases hd : isString body.description = true
    · simp [hd, jsTrim_idem]
    · simp [hd, jsTrim_empty]
  have hstr : strOf (JsVal.vstr s) = s := rfl
  have hidem : jsTrim (jsTrim s) ≠ "" := by
    rw [jsTrim_idem]
    exact hne
  have hpost : postItemsHandler body now store
      = ({ code := 201,
           body := .json (.jobj [("status", .jstr "ok"),
                                 ("message", .jstr "Item created"),
                                 ("data", itemToJson
                                   { id := store.nextId, name := jsTrim s,
                                     description := if isString body.description = true
                                                    then jsTrim (strOf body.description)
                                                    else "",
                                     createdAt := now, updatedAt := now })]) },
         { items := store.items ++
             [{ id := store.nextId, name := jsTrim s,
                description := if isString body.description = true
                               then jsTrim (strOf body.description) else "",
                createdAt := now, updatedAt := now }],
           nextId := store.nextId + 1 }) := by
    unfold postItemsHandler
    rw [hname, hguard, hstr]
    rw [Item.create_ok store now (jsTrim s)
      (if isString body.description = true
       then jsTrim (strOf body.description) else "") hidem]
    rw [jsTrim_idem, hdesc]
    simp
  refine ⟨?_, ?_, ?_⟩ <;>
    simp [postItems, withAuth, hauth, hpost]

/-- C4 witness: the claim theorem at the secret "k" and the body with name
"a" and no description. -/
theorem c4_post_valid_name_201_witness :
    requireApiKey "k" (some "k") = .pass ∧ jsTrim "a" ≠ "" ∧
    (postItems "k" (some "k") ⟨.vstr "a", .vundef⟩ 0 ⟨[], 0⟩).1.code = 201 :=
  ⟨by decide, by decide,
   (c4_post_valid_name_201 "k" (some "k") "a" ⟨.vstr "a", .vundef⟩ 0 ⟨[], 0⟩
     (by decide) rfl (by decide)).1⟩

/-! ### Claim C5 -/

/-- C5 counterexample: on a store holding item 1 with description "keep",
an authorized full update supplying only a name resets the stored
description to the empty string instead of leaving it unchanged. -/
theorem c5_cex_put_resets_description :
    ((putItems "k" (some "k") (.wellFormed 1) ⟨.vstr "b", .vundef⟩ 3
        ⟨[⟨1, "a", "keep", 0, 0⟩], 2⟩).2.items.map Item.description) = [""] ∧
    ¬ ((putItems "k" (some "k") (.wellFormed 1) ⟨.vstr "b", .vundef⟩ 3
        ⟨[⟨1, "a", "keep", 0, 0⟩], 2⟩).2.items.map Item.description) = ["keep"] := by
  constructor
  · decide
  · decide

/-- C5 (amended): an authorized full update on an existing item with the
description field omitted answers 200 and sets the stored description to
the empty string (the full replace default), replacing the name with its
trimmed value and refreshing updatedAt. -/
theorem c5_put_omitted_description_empty (apiKey : String) (key : Option String)
    (s : String) (body : ReqBody) (now : Nat) (store : Store) (oid : Nat) (it : Item)
    (hauth : requireApiKey apiKey key = .pass)
    (hname : body.name = .vstr s)
    (hne : jsTrim s ≠ "")
    (hdesc : isString body.description = false)
    (hfind : store.items.find? (fun x => x.id == oid) = some it) :
    (putItems apiKey key (.wellFormed oid) body now store).1.code = 200 ∧
    (putItems apiKey key (.wellFormed oid) body now store).2.items.find?
        (fun x => x.id == oid)
      = some { it with name := jsTrim s, description := "", updatedAt := now } := by
  have hguard := valid_name_guard s hne
  have hstr : strOf (JsVal.vstr s) = s := rfl
  have hval : ((some (jsTrim s) : Option String) == some "") = false := by
    rw [beq_eq_false_iff_ne]
    simp [hne]
  have hput : putItemsHandler (.wellFormed oid) body now store
      = (okItemResp "Item updated"
           { it with name := jsTrim s, description := "", updatedAt := now },
         { store with items := store.items.map (fun x =>
             if x.id == oid
             then { it with name := jsTrim s, description := "", updatedAt := now }
             else x) }) := by
    unfold putItemsHandler findByIdAndUpdate
    rw [hname, hguard, hstr, hdesc]
    simp only [Bool.false_eq_true, if_false, Option.map_some']
    rw [jsTrim_idem, hval, hfind]
    simp [jsTrim_empty]
  refine ⟨?_, ?_⟩
  · simp [putItems, withAuth, hauth, hput, okItemResp]
  · simp only [putItems, withAuth, hauth, hput]
    have hc : (fun x : Item => x.id == oid)
        { it with name := jsTrim s, description := "", updatedAt := now } = true := by
      simpa using List.find?_some hfind
    exact find?_map_overwrite (fun x : Item => x.id == oid)
      { it with name := jsTrim s, description := "", updatedAt := now }
      hc store.items it hfind

/-- C5 witness: the amended theorem at the concrete store holding item 1
with description "keep". -/
theorem c5_put_omitted_description_empty_witness :
    requireApiKey "k" (some "k") = .pass ∧
    jsTrim "b" ≠ "" ∧
    isString JsVal.vundef = false ∧
    (putItems "k" (some "k") (.wellFormed 1) ⟨.vstr "b", .vundef⟩ 3
        ⟨[⟨1, "a", "keep", 0, 0⟩], 2⟩).1.code = 200 :=
  ⟨by decide, by decide, rfl,
   (c5_put_omitted_description_empty "k" (some "k") "b" ⟨.vstr "b", .vundef⟩ 3
     ⟨[⟨1, "a", "keep", 0, 0⟩], 2⟩ 1 ⟨1, "a", "keep", 0, 0⟩
     (by decide) rfl (by decide) rfl (by decide)).1⟩

/-! ### Update size lemmas -/

theorem findByIdAndUpdate_length (store : Store) (now : Nat) (rid : ReqId)
    (upd : UpdateDoc) :
    ∀ (o : Option Item) (store2 : Store),
      findByIdAndUpdate store now rid upd = .ok (o, store2) →
        store2.items.length = store.items.length := by
  intro o store2 h
  cases rid with
  | malformed raw => simp [findByIdAndUpdate] at h
  | wellFormed oid =>
    simp only [findByIdAndUpdate] at h
    by_cases hv : (Option.map jsTrim upd.name == some "") = true
    · rw [if_pos hv] at h
      simp at h
    · rw [if_neg hv] at h
      cases hfind : store.items.find? (fun it => it.id == oid) with
      | none =>
        rw [hfind] at h
        cases h
        rfl
      | some it =>
        rw [hfind] at h
        cases h
        simp

theorem putItemsHandler_length (rid : ReqId) (body : ReqBody) (now : Nat)
    (store : Store) :
    ((putItemsHandler rid body now store).2).items.length = store.items.length := by
  unfold putItemsHandler
  split
  · rfl
  · cases hupd : findByIdAndUpdate store now rid
        { name := some (jsTrim (strOf body.name)),
          description := some (if isString body.description = true
                               then jsTrim (strOf body.description) else "") } with
    | error e => cases e <;> simp [hupd]
    | ok p =>
      obtain ⟨o, store2⟩ := p
      cases o <;> simp [hupd] <;>
        exact findByIdAndUpdate_length store now rid _ _ store2 hupd

theorem patchItemsHandler_length (rid : ReqId) (body : ReqBody) (now : Nat)
    (store : Store) :
    ((patchItemsHandler rid body now store).2).items.length = store.items.length := by
  unfold patchItemsHandler
  cases hdo : (do
      let n ← coercePatchField body.name
      let d ← coercePatchField body.description
      pure (n, d) : Except JsErr (Option String × Option String)) with
  | error e => simp [hdo]
  | ok p =>
    obtain ⟨n, d⟩ := p
    cases hc : (n == none && d == none) with
    | true => simp [hc]
    | false =>
      cases hupd : findByIdAndUpdate store now rid { name := n, description := d } with
      | error e => cases e <;> simp [hc, hupd]
      | ok q =>
        obtain ⟨o, store2⟩ := q
        cases o <;> simp [hc, hupd] <;>
          exact findByIdAndUpdate_length store now rid _ _ store2 hupd

theorem withAuth_items_length (apiKey : String) (key : Option String)
    (inner : Store → Response × Store) (store : Store)
    (hinner : ∀ st, ((inner st).2).items.length = st.items.length) :
    ((withAuth apiKey key inner store).2).items.length = store.items.length := by
  unfold withAuth
  split
  · rfl
  · rfl
  · exact hinner store

/-! ### Claim C8 -/

/-- C8 counterexample: an authorized full update on a well-formed id that
matches no item, but whose body carries no name, is answered 400, not the
404 the claim states for every such request. -/
theorem c8_cex_put_unmatched_invalid_body :
    (putItems "k" (some "k") (.wellFormed 7) ⟨.vundef, .vundef⟩ 0 ⟨[], 0⟩).1.code = 400 ∧
    ¬ (putItems "k" (some "k") (.wellFormed 7) ⟨.vundef, .vundef⟩ 0 ⟨[], 0⟩).1.code = 404 := by
  constructor
  · decide
  · decide

/-- C8 (amended): an authorized full or partial update that passes body
validation, on a well-formed id matching no existing item, is answered 404
with the store unchanged; and no update request ever changes the number of
stored items, so an update never creates one. -/
theorem c8_update_unmatched_404 (apiKey : String) (key : Option String)
    (body : ReqBody) (now : Nat) (store : Store) (oid : Nat)
    (hauth : requireApiKey apiKey key = .pass)
    (hnone : store.items.find? (fun x => x.id == oid) = none) :
    (∀ s : String, body.name = .vstr s → jsTrim s ≠ "" →
       (putItems apiKey key (.wellFormed oid) body now store).1.code = 404 ∧
       (putItems apiKey key (.wellFormed oid) body now store).2 = store) ∧
    (∀ (n d : Option String), coercePatchField body.name = .ok n →
       coercePatchField body.description = .ok d →
       ¬(n = none ∧ d = none) →
       (∀ t, n = some t → jsTrim t ≠ "") →
       (patchItems apiKey key (.wellFormed oid) body now store).1.code = 404 ∧
       (patchItems apiKey key (.wellFormed oid) body now store).2 = store) ∧
    (∀ (key2 : Option String) (rid : ReqId) (body2 : ReqBody),
       ((putItems apiKey key2 rid body2 now store).2).items.length
         = store.items.length ∧
       ((patchItems apiKey key2 rid body2 now store).2).items.length
         = store.items.length) := by
  refine ⟨?_, ?_, ?_⟩
  · intro s hname hne
    have hguard := valid_name_guard s hne
    have hval : ((some (jsTrim s) : Option String) == some "") = false := by
      rw [beq_eq_false_iff_ne]
      simp [hne]
    have hput : putItemsHandler (.wellFormed oid) body now store
        = (errResp 404 "Item not found", store) := by
      unfold putItemsHandler findByIdAndUpdate
      rw [hname, hguard, show strOf (JsVal.vstr s) = s from rfl]
      simp only [Bool.false_eq_true, if_false, Option.map_some']
      rw [jsTrim_idem, hval, hnone]
      simp
    constructor <;> simp [putItems, withAuth, hauth, hput, errResp]
  · intro n d hn hd hnd hnblank
    have hdo : (do
        let a ← coercePatchField body.name
        let b ← coercePatchField body.description
        pure (a, b) : Except JsErr (Option String × Option String)) = .ok (n, d) := by
      rw [show (do
        let a ← coercePatchField body.name
        let b ← coercePatchField body.description
        pure (a, b) : Except JsErr (Option String × Option String))
          = (coercePatchField body.name).bind (fun a =>
              (coercePatchField body.description).bind (fun b => .ok (a, b)))
        from rfl]
      rw [hn, hd]
      rfl
    have hif : (n == none && d == none) = false := by
      cases n with
      | none =>
        cases d with
        | none => exact absurd ⟨rfl, rfl⟩ hnd
        | some t => rfl
      | some t => rfl
    have hval : (Option.map jsTrim n == some "") = false := by
      cases n with
      | none => rfl
      | some t => simp [hnblank t rfl]
    have hpatch : patchItemsHandler (.wellFormed oid) body now store
        = (errResp 404 "Item not found", store) := by
      unfold patchItemsHandler findByIdAndUpdate
      rw [hdo]
      simp only [hif, Bool.false_eq_true, if_false]
      rw [hval, hnone]
      simp
    constructor <;> simp [patchItems, withAuth, hauth, hpatch, errResp]
  · intro key2 rid body2
    constructor
    · exact withAuth_items_length apiKey key2 _ store
        (fun st => putItemsHandler_length rid body2 now st)
    · exact withAuth_items_length apiKey key2 _ store
        (fun st => patchItemsHandler_length rid body2 now st)

/-- C8 witness: the amended theorem at the empty store and the well-formed
id 7. -/
theorem c8_update_unmatched_404_witness :
    requireApiKey "k" (some "k") = .pass ∧
    (⟨[], 0⟩ : Store).items.find? (fun x => x.id == 7) = none ∧
    (putItems "k" (some "k") (.wellFormed 7) ⟨.vstr "a", .vundef⟩ 0 ⟨[], 0⟩).1.code = 404 :=
  ⟨by decide, by decide,
   ((c8_update_unmatched_404 "k" (some "k") ⟨.vstr "a", .vundef⟩ 0 ⟨[], 0⟩ 7
     (by decide) (by decide)).1 "a" rfl (by decide)).1⟩

/-! ### PATCH coercion lemmas -/

theorem patch_do_eq (body : ReqBody) :
    (do
      let n ← coercePatchField body.name
      let d ← coercePatchField body.description
      pure (n, d) : Except JsErr (Option String × Option String))
      = (coercePatchField body.name).bind (fun a =>
          (coercePatchField body.description).bind (fun b => .ok (a, b))) := rfl

theorem coercePatchField_of_toString_ok (v : JsVal) (s : String)
    (h : jsToString v = .ok s) :
    coercePatchField v = .ok (some (jsTrim s)) := by
  cases v with
  | vundef => simp [jsToString] at h
  | vnull => simp [jsToString] at h
  | vstr t =>
    simp [jsToString] at h
    subst h
    rfl
  | vnum n =>
    simp [jsToString] at h
    subst h
    rfl
  | vbool b =>
    simp [jsToString] at h
    subst h
    rfl

/-! ### Claim C10 -/

/-- C10: an authorized partial update in which name or description is
supplied as null is answered 500 (the toString coercion throws a TypeError
that the handler surfaces as the generic server error, not a 400), with
the store unchanged. -/
theorem c10_patch_null_500 (apiKey : String) (key : Option String) (rid : ReqId)
    (body : ReqBody) (now : Nat) (store : Store)
    (hauth : requireApiKey apiKey key = .pass)
    (hnull : body.name = .vnull ∨ body.description = .vnull) :
    (patchItems apiKey key rid body now store).1.code = 500 ∧
    (patchItems apiKey key rid body now store).2 = store := by
  have hdo : (do
      let n ← coercePatchField body.name
      let d ← coercePatchField body.description
      pure (n, d) : Except JsErr (Option String × Option String))
      = .error .typeError := by
    rw [patch_do_eq body]
    rcases hnull with h | h
    · rw [h]
      rfl
    · cases hb : body.name <;> rw [h] <;> rfl
  have hpatch : patchItemsHandler rid body now store
      = (errResp 500 "Server error", store) := by
    unfold patchItemsHandler
    rw [hdo]
  constructor <;> simp [patchItems, withAuth, hauth, hpatch, errResp]

/-- C10 witness: the claim theorem at a body whose name is null. -/
theorem c10_patch_null_500_witness :
    requireApiKey "k" (some "k") = .pass ∧
    (patchItems "k" (some "k") (.wellFormed 1) ⟨.vnull, .vundef⟩ 0 ⟨[], 0⟩).1.code = 500 :=
  ⟨by decide,
   (c10_patch_null_500 "k" (some "k") (.wellFormed 1) ⟨.vnull, .vundef⟩ 0 ⟨[], 0⟩
     (by decide) (Or.inl rfl)).1⟩

/-! ### Claim C1 -/

/-- C1 counterexample: an authorized partial update supplying the number 42
as name — not a string — is answered 200: the handler coerces it to the
string form and accepts it, instead of rejecting with the claimed 400. -/
theorem c1_cex_patch_number_name_200 :
    (patchItems "k" (some "k") (.wellFormed 1) ⟨.vnum 42, .vundef⟩ 5
        ⟨[⟨1, "a", "", 0, 0⟩], 2⟩).1.code = 200 ∧
    ¬ (patchItems "k" (some "k") (.wellFormed 1) ⟨.vnum 42, .vundef⟩ 5
        ⟨[⟨1, "a", "", 0, 0⟩], 2⟩).1.code = 400 := by
  constructor
  · decide
  · decide

/-- C1 (amended): a partial update never rejects a supplied name with 400:
on a well-formed id, a null name is answered 500 (toString throws), a name
whose string coercion trims to the empty string is answered 500 (the
store validation failure surfaces as a server error), and a name whose
coercion trims to a nonempty string is never answered 400. -/
theorem c1_patch_name_not_validated (apiKey : String) (key : Option String)
    (body : ReqBody) (now : Nat) (store : Store) (oid : Nat)
    (hauth : requireApiKey apiKey key = .pass) :
    (body.name = .vnull →
       (patchItems apiKey key (.wellFormed oid) body now store).1.code = 500) ∧
    (∀ s : String, jsToString body.name = .ok s → jsTrim s = "" →
       (patchItems apiKey key (.wellFormed oid) body now store).1.code = 500) ∧
    (∀ s : String, jsToString body.name = .ok s → jsTrim s ≠ "" →
       ¬ (patchItems apiKey key (.wellFormed oid) body now store).1.code = 400) := by
  refine ⟨?_, ?_, ?_⟩
  · intro h
    exact (c10_patch_null_500 apiKey key (.wellFormed oid) body now store hauth
      (Or.inl h)).1
  · intro s hok hblank
    have hcn := coercePatchField_of_toString_ok body.name s hok
    cases hcd : coercePatchField body.description with
    | error e =>
      have hdo : (do
          let n ← coercePatchField body.name
          let d ← coercePatchField body.description
          pure (n, d) : Except JsErr (Option String × Option String))
          = .error e := by
        rw [patch_do_eq body, hcn, hcd]
        rfl
      have hpatch : patchItemsHandler (.wellFormed oid) body now store
          = (errResp 500 "Server error", store) := by
        unfold patchItemsHandler
        rw [hdo]
      simp [patchItems, withAuth, hauth, hpatch, errResp]
    | ok d =>
      have hdo : (do
          let n ← coercePatchField body.name
          let d ← coercePatchField body.description
          pure (n, d) : Except JsErr (Option String × Option String))
          = .ok (some (jsTrim s), d) := by
        rw [patch_do_eq body, hcn, hcd]
        rfl
      have hpatch : patchItemsHandler (.wellFormed oid) body now store
          = (errResp 500 "Server error", store) := by
        unfold patchItemsHandler
        rw [hdo]
        simp [findByIdAndUpdate, jsTrim_idem, hblank, jsTrim_empty, errResp]
      simp [patchItems, withAuth, hauth, hpatch, errResp]
  · intro s hok hne
    have hcn := coercePatchField_of_toString_ok body.name s hok
    cases hcd : coercePatchField body.description with
    | error e =>
      have hdo : (do
          let n ← coercePatchField body.name
          let d ← coercePatchField body.description
          pure (n, d) : Except JsErr (Option String × Option String))
          = .error e := by
        rw [patch_do_eq body, hcn, hcd]
        rfl
      have hpatch : patchItemsHandler (.wellFormed oid) body now store
          = (errResp 500 "Server error", store) := by
        unfold patchItemsHandler
        rw [hdo]
      simp [patchItems, withAuth, hauth, hpatch, errResp]
    | ok d =>
      have hdo : (do
          let n ← coercePatchField body.name
          let d ← coercePatchField body.description
          pure (n, d) : Except JsErr (Option String × Option String))
          = .ok (some (jsTrim s), d) := by
        rw [patch_do_eq body, hcn, hcd]
        rfl
      cases hfind : store.items.find? (fun x => x.id == oid) with
      | none =>
        have hpatch : patchItemsHandler (.wellFormed oid) body now store
            = (errResp 404 "Item not found", store) := by
          unfold patchItemsHandler
          rw [hdo]
          simp [findByIdAndUpdate, jsTrim_idem, hne, hfind, errResp]
        simp [patchItems, withAuth, hauth, hpatch, errResp]
      | some it =>
        have hpatch : (patchItemsHandler (.wellFormed oid) body now store).1.code
            = 200 := by
          unfold patchItemsHandler
          rw [hdo]
          simp [findByIdAndUpdate, jsTrim_idem, hne, hfind, okItemResp]
        simp [patchItems, withAuth, hauth, hpatch]

/-- C1 witness: the amended theorem at a body whose name is the blank
string " ", which trims to empty and is answered 500. -/
theorem c1_patch_name_not_validated_witness :
    requireApiKey "k" (some "k") = .pass ∧
    jsToString (JsVal.vstr " ") = .ok " " ∧
    jsTrim " " = "" ∧
    (patchItems "k" (some "k") (.wellFormed 1) ⟨.vstr " ", .vundef⟩ 0 ⟨[], 0⟩).1.code = 500 :=
  ⟨by decide, rfl, by decide,
   (c1_patch_name_not_validated "k" (some "k") ⟨.vstr " ", .vundef⟩ 0 ⟨[], 0⟩ 1
     (by decide)).2.1 " " rfl (by decide)⟩

end Server
